import Mathlib

/-!
Shallow embedding of the OpenBLAS Conan recipe (src/conanfile.py): the
target-list loader with its digest check, the configure-time validation and
Windows/NOFORTRAN normalization, the Make-path argument-list construction,
the CMake-path cache-variable definitions, and the package-info
link-dependency reporting. Python strings stay strings; environment and
path lookups become explicit functions; the hash function is an abstract
parameter since the recipe only compares its output to a fixed literal.
-/

namespace Openblas

/-- Snapshot of `self.settings`: operating system, CPU architecture,
compiler identity and build type, each the string a Conan profile gives. -/
structure Settings where
  os : String
  arch : String
  compiler : String
  build_type : String
  deriving DecidableEq

/-- The recipe's option set (`self.options`). Boolean options as declared in
the source; `TARGET` is one of the enumerated upstream target names, kept as
a plain string here. -/
structure Options where
  shared : Bool
  USE_MASS : Bool
  USE_OPENMP : Bool
  NO_LAPACKE : Bool
  NOFORTRAN : Bool
  TARGET : String
  deriving DecidableEq

/-- Side effects a recipe step can perform that the claims talk about:
warnings emitted through `self.output.warn`, remote fetches, and subprocess
invocations (`self.run`). -/
inductive Effect where
  | warn (msg : String)
  | fetch (url : String)
  | subprocess (cmd : String)
  deriving DecidableEq

/-- True exactly on warning effects. -/
def Effect.isWarn : Effect → Bool
  | Effect.warn _ => true
  | _ => false

/-- The recipe's failure taxonomy. The source raises plain `Exception`s; the
constructors here separate the three textually distinct raise sites and
propagated network failures, which the spec names ConfigurationError,
IntegrityError and NetworkError. -/
inductive RecipeError where
  | configurationError (msg : String)
  | integrityError (msg : String)
  | networkError (msg : String)
  deriving DecidableEq

/-- Message of the raise in `OpenblasConan.configure` for a static
Visual Studio build (src/conanfile.py lines 66-67). -/
def vsStaticMsg : String :=
  "Static build not supported in Visual Studio: https://github.com/xianyi/OpenBLAS/blob/v0.3.5/CMakeLists.txt#L152"

/-- Warning text of src/conanfile.py line 71. -/
def nofortranWarnMsg : String :=
  "NOFORTRAN option is disabled for Windows. Setting to false"

/-- Embeds `OpenblasConan.configure` (src/conanfile.py lines 63-72).
Returns the effect trace of the step together with either the error raised
or the (possibly normalized) option set. The method raises when the
compiler is Visual Studio and `shared` is off; otherwise, on Windows with
`NOFORTRAN` requested true, it warns once and forces `NOFORTRAN` to false. -/
def configure (settings : Settings) (options : Options) :
    List Effect × Except RecipeError Options :=
  if settings.compiler = "Visual Studio" ∧ options.shared = false then
    ([], Except.error (RecipeError.configurationError vsStaticMsg))
  else if settings.os = "Windows" ∧ options.NOFORTRAN = true then
    ([Effect.warn nofortranWarnMsg], Except.ok { options with NOFORTRAN := false })
  else
    ([], Except.ok options)

/-- A Linux/gcc settings sample used as concrete input. -/
def sampleLinux : Settings :=
  { os := "Linux", arch := "x86_64", compiler := "gcc", build_type := "Release" }

/-- A Windows/Visual Studio settings sample used as concrete input. -/
def sampleWindowsVS : Settings :=
  { os := "Windows", arch := "x86_64", compiler := "Visual Studio", build_type := "Release" }

/-- A Windows/gcc (MinGW-style) settings sample used as concrete input. -/
def sampleWindowsGcc : Settings :=
  { os := "Windows", arch := "x86_64", compiler := "gcc", build_type := "Release" }

/-- The recipe's default option values (src/conanfile.py line 46), with a
concrete upstream target name. -/
def defaultOptions : Options :=
  { shared := true, USE_MASS := false, USE_OPENMP := false,
    NO_LAPACKE := true, NOFORTRAN := false, TARGET := "HASWELL" }

/-- Claim C1: whenever the compiler is a Visual-Studio-class toolchain and
the shared option is false, the configure step fails with a
ConfigurationError and its effect trace is empty, so no fetch and no
subprocess happens in the step. -/
theorem configure_vs_static_rejected (settings : Settings) (options : Options)
    (hvs : settings.compiler = "Visual Studio") (hsh : options.shared = false) :
    configure settings options =
      ([], Except.error (RecipeError.configurationError vsStaticMsg)) := by
  simp [configure, hvs, hsh]

/-- Witness for C1 at the concrete Visual Studio static-build input. -/
theorem configure_vs_static_rejected_witness :
    sampleWindowsVS.compiler = "Visual Studio" ∧
    { defaultOptions with shared := false }.shared = false ∧
    configure sampleWindowsVS { defaultOptions with shared := false } =
      ([], Except.error (RecipeError.configurationError vsStaticMsg)) :=
  ⟨rfl, rfl, configure_vs_static_rejected sampleWindowsVS
    { defaultOptions with shared := false } rfl rfl⟩

/-- Claim C3, counterexample: on Windows with `NOFORTRAN` requested false
the configure step succeeds but records zero warnings, not exactly one. -/
theorem windows_nofortran_counterexample :
    sampleWindowsGcc.os = "Windows" ∧
    (configure sampleWindowsGcc defaultOptions).2 = Except.ok defaultOptions ∧
    ¬ ((configure sampleWindowsGcc defaultOptions).1.filter Effect.isWarn).length = 1 := by
  refine ⟨rfl, ?_, ?_⟩ <;> simp [configure, sampleWindowsGcc, defaultOptions]

/-- Claim C3, amended: on Windows, whenever configure succeeds the
effective `NOFORTRAN` is false regardless of the requested value, and a
warning is recorded exactly once when the caller requested `NOFORTRAN`
true, and not at all otherwise. -/
theorem windows_forces_nofortran (settings : Settings) (options opts' : Options)
    (hwin : settings.os = "Windows")
    (hok : (configure settings options).2 = Except.ok opts') :
    opts'.NOFORTRAN = false ∧
      ((configure settings options).1.filter Effect.isWarn).length =
        (if options.NOFORTRAN then 1 else 0) := by
  by_cases hvs : settings.compiler = "Visual Studio" ∧ options.shared = false
  · simp [configure, hvs] at hok
  · cases hnf : options.NOFORTRAN
    · have : (configure settings options).2 = Except.ok options ∧
          (configure settings options).1 = [] := by
        simp [configure, hvs, hnf]
      rw [this.1] at hok
      cases hok
      simp [this.2, hnf]
    · have : (configure settings options).2 =
            Except.ok { options with NOFORTRAN := false } ∧
          (configure settings options).1 = [Effect.warn nofortranWarnMsg] := by
        simp [configure, hvs, hwin, hnf]
      rw [this.1] at hok
      cases hok
      simp [this.2, hnf, Effect.isWarn]

/-- Witness for the amended C3 at a concrete Windows input with
`NOFORTRAN` requested true. -/
theorem windows_forces_nofortran_witness :
    sampleWindowsGcc.os = "Windows" ∧
    (configure sampleWindowsGcc { defaultOptions with NOFORTRAN := true }).2 =
      Except.ok defaultOptions ∧
    defaultOptions.NOFORTRAN = false ∧
    ((configure sampleWindowsGcc
        { defaultOptions with NOFORTRAN := true }).1.filter Effect.isWarn).length = 1 := by
  have hok : (configure sampleWindowsGcc { defaultOptions with NOFORTRAN := true }).2 =
      Except.ok defaultOptions := by
    simp [configure, sampleWindowsGcc, defaultOptions]
  have h := windows_forces_nofortran sampleWindowsGcc
    { defaultOptions with NOFORTRAN := true } defaultOptions rfl hok
  exact ⟨rfl, hok, h.1, h.2⟩

/-- Embeds `OpenblasConan._get_make_arch` (src/conanfile.py lines 49-50). -/
def _get_make_arch (settings : Settings) : String :=
  if settings.arch = "x86" then "32" else "64"

/-- Embeds `OpenblasConan._get_make_build_type_debug` (lines 52-53). -/
def _get_make_build_type_debug (settings : Settings) : String :=
  if settings.build_type = "Release" then "0" else "1"

/-- Embeds `OpenblasConan._get_make_option_value` (lines 55-57). -/
def _get_make_option_value (option : Bool) : String :=
  if option then "1" else "0"

/-- Python `a or b` restricted to optional strings: `none` and the empty
string are falsy, anything else short-circuits. Models the
`tools.which(...) or tools.which(...)` chain. -/
def pyOrStr (a b : Option String) : Option String :=
  match a with
  | some s => if s = "" then b else some s
  | none => b

/-- Python `"%s" % x` for an optional string: `None` renders as the literal
string "None". -/
def pyStr : Option String → String
  | some s => s
  | none => "None"

/-- The ambient build environment `_build_make` consults: `os.environ`
lookups, `tools.which` path search, and the `tools.cross_building`
predicate on the current settings. -/
structure BuildEnv where
  env : String → Option String
  which : String → Option String
  crossBuilding : Bool

/-- Host C compiler resolution in `OpenblasConan._build_make`
(src/conanfile.py lines 113-116): take `CC_FOR_BUILD` from the environment
when present, otherwise the first truthy result of `which` on cc, gcc,
clang in that order. -/
def resolveHostcc (env which : String → Option String) : Option String :=
  match env "CC_FOR_BUILD" with
  | some v => some v
  | none => pyOrStr (which "cc") (pyOrStr (which "gcc") (which "clang"))

/-- Embeds the argument list `make_options` assembled by
`OpenblasConan._build_make` (src/conanfile.py lines 99-126), in the order
the source appends: the six fixed key=value entries, the static/shared
flag, HOSTCC when cross-building, TARGET when truthy, CC and AR from the
environment, then the caller-supplied trailing arguments. -/
def _build_make (settings : Settings) (options : Options) (benv : BuildEnv)
    (args : List String) : List String :=
  let make_options := ["DEBUG=" ++ _get_make_build_type_debug settings,
                       "BINARY=" ++ _get_make_arch settings,
                       "NO_LAPACKE=" ++ _get_make_option_value options.NO_LAPACKE,
                       "USE_MASS=" ++ _get_make_option_value options.USE_MASS,
                       "USE_OPENMP=" ++ _get_make_option_value options.USE_OPENMP,
                       "NOFORTRAN=" ++ _get_make_option_value options.NOFORTRAN]
  let make_options := if options.shared then make_options ++ ["NO_STATIC=1"]
    else make_options ++ ["NO_SHARED=1"]
  let target := options.TARGET
  let make_options := if benv.crossBuilding then
      make_options ++ ["HOSTCC=" ++ pyStr (resolveHostcc benv.env benv.which)]
    else make_options
  let make_options := if target ≠ "" then make_options ++ ["TARGET=" ++ target]
    else make_options
  let make_options := match benv.env "CC" with
    | some v => make_options ++ ["CC=" ++ v]
    | none => make_options
  let make_options := match benv.env "AR" with
    | some v => make_options ++ ["AR=" ++ v]
    | none => make_options
  make_options ++ args

/-- Closed form of `_build_make` as a concatenation of its ordered
segments; shared by the order, HOSTCC and null-HOSTCC results below. -/
theorem build_make_flat (settings : Settings) (options : Options) (benv : BuildEnv)
    (args : List String) :
    _build_make settings options benv args =
      ["DEBUG=" ++ _get_make_build_type_debug settings,
       "BINARY=" ++ _get_make_arch settings,
       "NO_LAPACKE=" ++ _get_make_option_value options.NO_LAPACKE,
       "USE_MASS=" ++ _get_make_option_value options.USE_MASS,
       "USE_OPENMP=" ++ _get_make_option_value options.USE_OPENMP,
       "NOFORTRAN=" ++ _get_make_option_value options.NOFORTRAN]
      ++ (if options.shared then ["NO_STATIC=1"] else ["NO_SHARED=1"])
      ++ (if benv.crossBuilding then
            ["HOSTCC=" ++ pyStr (resolveHostcc benv.env benv.which)] else [])
      ++ (if options.TARGET ≠ "" then ["TARGET=" ++ options.TARGET] else [])
      ++ (match benv.env "CC" with | some v => ["CC=" ++ v] | none => [])
      ++ (match benv.env "AR" with | some v => ["AR=" ++ v] | none => [])
      ++ args := by
  unfold _build_make
  cases options.shared <;> cases benv.crossBuilding <;>
    cases benv.env "CC" <;> cases benv.env "AR" <;>
    by_cases ht : options.TARGET = "" <;>
    simp [ht]

/-- Claim C2: for every option set, platform, environment and trailing
argument list, the Make-path argument list is exactly the concatenation, in
this fixed order, of DEBUG, BINARY, NO_LAPACKE, USE_MASS, USE_OPENMP,
NOFORTRAN, the static/shared flag, HOSTCC only when cross-compiling, TARGET
only when set, CC only when the environment sets it, AR only when the
environment sets it, and the caller-supplied trailing arguments. -/
theorem make_args_ordered (settings : Settings) (options : Options) (benv : BuildEnv)
    (args : List String) :
    _build_make settings options benv args =
      ["DEBUG=" ++ _get_make_build_type_debug settings,
       "BINARY=" ++ _get_make_arch settings,
       "NO_LAPACKE=" ++ _get_make_option_value options.NO_LAPACKE,
       "USE_MASS=" ++ _get_make_option_value options.USE_MASS,
       "USE_OPENMP=" ++ _get_make_option_value options.USE_OPENMP,
       "NOFORTRAN=" ++ _get_make_option_value options.NOFORTRAN]
      ++ (if options.shared then ["NO_STATIC=1"] else ["NO_SHARED=1"])
      ++ (if benv.crossBuilding then
            ["HOSTCC=" ++ pyStr (resolveHostcc benv.env benv.which)] else [])
      ++ (if options.TARGET ≠ "" then ["TARGET=" ++ options.TARGET] else [])
      ++ (match benv.env "CC" with | some v => ["CC=" ++ v] | none => [])
      ++ (match benv.env "AR" with | some v => ["AR=" ++ v] | none => [])
      ++ args :=
  build_make_flat settings options benv args

/-- Claim C7: BINARY is "32" exactly when the architecture is x86 and "64"
otherwise, DEBUG is "0" exactly when the build type is Release and "1"
otherwise, and every boolean option renders as "1" when true and "0" when
false. -/
theorem make_derived_flags (settings : Settings) (b : Bool) :
    (_get_make_arch settings = "32" ↔ settings.arch = "x86") ∧
    (_get_make_arch settings = "64" ↔ ¬ settings.arch = "x86") ∧
    (_get_make_build_type_debug settings = "0" ↔ settings.build_type = "Release") ∧
    (_get_make_build_type_debug settings = "1" ↔ ¬ settings.build_type = "Release") ∧
    _get_make_option_value b = (if b then "1" else "0") := by
  by_cases ha : settings.arch = "x86" <;>
    by_cases hb : settings.build_type = "Release" <;>
      simp [_get_make_arch, _get_make_build_type_debug, _get_make_option_value, ha, hb]

/-- Claim C8: on a cross-compiling Make-path build the argument list
carries `HOSTCC=` followed by the resolved host compiler, and the
resolution priority is: the `CC_FOR_BUILD` environment variable when set,
otherwise the first found of cc, gcc, clang on the search path, in that
order. -/
theorem hostcc_resolution (settings : Settings) (options : Options)
    (benv : BuildEnv) (args : List String)
    (hcross : benv.crossBuilding = true) :
    ("HOSTCC=" ++ pyStr (resolveHostcc benv.env benv.which)) ∈
      _build_make settings options benv args ∧
    (∀ v, benv.env "CC_FOR_BUILD" = some v →
      resolveHostcc benv.env benv.which = some v) ∧
    (∀ p, benv.env "CC_FOR_BUILD" = none → benv.which "cc" = some p → ¬ p = "" →
      resolveHostcc benv.env benv.which = some p) ∧
    (∀ p, benv.env "CC_FOR_BUILD" = none → benv.which "cc" = none →
      benv.which "gcc" = some p → ¬ p = "" →
      resolveHostcc benv.env benv.which = some p) ∧
    (benv.env "CC_FOR_BUILD" = none → benv.which "cc" = none →
      benv.which "gcc" = none →
      resolveHostcc benv.env benv.which = benv.which "clang") := by
  refine ⟨?_, ?_, ?_, ?_, ?_⟩
  · rw [build_make_flat]
    simp [hcross]
  · intro v hv
    simp [resolveHostcc, hv]
  · intro p h0 h1 hp
    simp [resolveHostcc, pyOrStr, h0, h1, hp]
  · intro p h0 h1 h2 hp
    simp [resolveHostcc, pyOrStr, h0, h1, h2, hp]
  · intro h0 h1 h2
    cases h3 : benv.which "clang" <;> simp [resolveHostcc, pyOrStr, h0, h1, h2, h3]

/-- A concrete cross-compiling environment where `CC_FOR_BUILD` is set. -/
def sampleCrossEnv : BuildEnv :=
  { env := fun s => if s = "CC_FOR_BUILD" then some "/usr/bin/cc" else none,
    which := fun _ => none,
    crossBuilding := true }

/-- Witness for C8 at a concrete cross-compiling input where
`CC_FOR_BUILD` is set to /usr/bin/cc. -/
theorem hostcc_resolution_witness :
    sampleCrossEnv.crossBuilding = true ∧
    resolveHostcc sampleCrossEnv.env sampleCrossEnv.which = some "/usr/bin/cc" ∧
    "HOSTCC=/usr/bin/cc" ∈
      _build_make sampleLinux defaultOptions sampleCrossEnv [] := by
  have h := hostcc_resolution sampleLinux defaultOptions sampleCrossEnv [] rfl
  have hv : resolveHostcc sampleCrossEnv.env sampleCrossEnv.which = some "/usr/bin/cc" :=
    h.2.1 "/usr/bin/cc" (by simp [sampleCrossEnv])
  refine ⟨rfl, hv, ?_⟩
  have hm := h.1
  rw [hv] at hm
  exact hm

/-- A concrete cross-compiling environment where nothing resolves: no
`CC_FOR_BUILD`, and cc, gcc, clang are all absent from the path. -/
def sampleBareCrossEnv : BuildEnv :=
  { env := fun _ => none, which := fun _ => none, crossBuilding := true }

/-- Claim C10: a cross-compiling build where `CC_FOR_BUILD` is unset and
none of cc, gcc, clang is found does not fail; the argument list still
carries a HOSTCC entry, with Python's rendering of the null result, the
literal `HOSTCC=None`. -/
theorem hostcc_none_rendered (settings : Settings) (options : Options)
    (benv : BuildEnv) (args : List String)
    (hcross : benv.crossBuilding = true)
    (henv : benv.env "CC_FOR_BUILD" = none)
    (hcc : benv.which "cc" = none) (hgcc : benv.which "gcc" = none)
    (hclang : benv.which "clang" = none) :
    "HOSTCC=None" ∈ _build_make settings options benv args := by
  have h : resolveHostcc benv.env benv.which = none := by
    simp [resolveHostcc, pyOrStr, henv, hcc, hgcc, hclang]
  rw [build_make_flat]
  simp [hcross, h, pyStr]

/-- Witness for C10 at the concrete bare cross-compiling environment. -/
theorem hostcc_none_rendered_witness :
    sampleBareCrossEnv.crossBuilding = true ∧
    "HOSTCC=None" ∈ _build_make sampleLinux defaultOptions sampleBareCrossEnv [] :=
  ⟨rfl, hostcc_none_rendered sampleLinux defaultOptions sampleBareCrossEnv []
    rfl rfl rfl rfl rfl⟩

/-- Embeds the cache-variable dictionary assembled by
`OpenblasConan._configure_cmake` (src/conanfile.py lines 85-93), as the
association list of definitions in assignment order; each value is the
boolean option the source binds. -/
def _configure_cmake (options : Options) : List (String × Bool) :=
  [("USE_MASS", options.USE_MASS),
   ("USE_OPENMP", options.USE_OPENMP),
   ("NO_LAPACKE", options.NO_LAPACKE),
   ("NOFORTRAN", options.NOFORTRAN)]

/-- Claim C4: on the CMake path the cache-variable definitions are exactly
USE_MASS, USE_OPENMP, NO_LAPACKE and NOFORTRAN, each bound to the boolean
value of the option of the same name, and no definition is added for
shared, TARGET, the architecture flag or the debug flag. -/
theorem cmake_definitions_exact (options : Options) :
    _configure_cmake options =
      [("USE_MASS", options.USE_MASS), ("USE_OPENMP", options.USE_OPENMP),
       ("NO_LAPACKE", options.NO_LAPACKE), ("NOFORTRAN", options.NOFORTRAN)] ∧
    (_configure_cmake options).map Prod.fst =
      ["USE_MASS", "USE_OPENMP", "NO_LAPACKE", "NOFORTRAN"] ∧
    ¬ "shared" ∈ (_configure_cmake options).map Prod.fst ∧
    ¬ "TARGET" ∈ (_configure_cmake options).map Prod.fst ∧
    ¬ "BINARY" ∈ (_configure_cmake options).map Prod.fst ∧
    ¬ "DEBUG" ∈ (_configure_cmake options).map Prod.fst := by
  refine ⟨rfl, rfl, ?_, ?_, ?_, ?_⟩ <;> simp [_configure_cmake]

/-- The fixed digest `_load_possible_targets` compares against
(src/conanfile.py line 14). -/
def expected_digest : String :=
  "383b9fb0113801fa00efbb9c80f5dd90ded99c893b3164a86e27289400600bde"

/-- The manifest URL built from the version (src/conanfile.py line 11). -/
def targetListUrl (version : String) : String :=
  "https://raw.githubusercontent.com/xianyi/OpenBLAS/v" ++ version ++ "/TargetList.txt"

/-- A character the manifest pattern accepts: an ASCII uppercase letter,
the character class of the source regex on line 18. -/
def isUpperAZ (c : Char) : Bool :=
  decide ('A' ≤ c) && decide (c ≤ 'Z')

/-- Whether a line fully matches the source's pattern of one or more
uppercase letters and nothing else (src/conanfile.py lines 18-22). -/
def isTargetLine (line : String) : Bool :=
  !line.data.isEmpty && line.data.all isUpperAZ

/-- Splitting a character list at every newline, the worker behind
Python's `split` with the newline separator: no collapsing of adjacent
separators and the empty input gives one empty piece. -/
def splitNlChars : List Char → List (List Char)
  | [] => [[]]
  | c :: cs =>
    let rest := splitNlChars cs
    if c = '\n' then [] :: rest
    else (c :: rest.headI) :: rest.tail

/-- Python `s.split` with the newline separator, as the source's line 19
uses it on the fetched body. -/
def pySplitNl (s : String) : List String :=
  (splitNlChars s.data).map (fun l => String.mk l)

/-- Embeds `_load_possible_targets` (src/conanfile.py lines 9-23). The
network layer is a parameter: `fetched` is the body `requests.get(url).text`
produced, or the transport failure the HTTP client raised. Hashing is the
abstract parameter `sha256`, since the source only compares its hex digest
to the fixed literal. On a digest mismatch the source raises before any
line is examined; otherwise it keeps, in file order, the lines matching the
uppercase-only pattern. -/
def _load_possible_targets (sha256 : String → String) (version : String)
    (fetched : Except String String) : Except RecipeError (List String) :=
  match fetched with
  | Except.error e => Except.error (RecipeError.networkError e)
  | Except.ok target_list =>
    let actual_digest := sha256 target_list
    if ¬ actual_digest = expected_digest then
      Except.error (RecipeError.integrityError
        ("The computed digest (" ++ targetListUrl version ++ ") fot " ++ actual_digest ++
         " is not equal to the expected digest (" ++ expected_digest ++ ")"))
    else
      Except.ok ((pySplitNl target_list).filter isTargetLine)

/-- Claim C5: whenever the fetched body's digest differs from the fixed
expected digest, loading fails with an IntegrityError, which is never a
network error, and no target list is returned, so no line of the body is
accepted. -/
theorem digest_mismatch_rejected (sha256 : String → String) (version body : String)
    (h : ¬ sha256 body = expected_digest) :
    (∃ msg, _load_possible_targets sha256 version (Except.ok body) =
      Except.error (RecipeError.integrityError msg)) ∧
    (∀ e, ¬ _load_possible_targets sha256 version (Except.ok body) =
      Except.error (RecipeError.networkError e)) ∧
    (∀ ts, ¬ _load_possible_targets sha256 version (Except.ok body) =
      Except.ok ts) := by
  refine ⟨⟨"The computed digest (" ++ targetListUrl version ++ ") fot " ++ sha256 body ++
    " is not equal to the expected digest (" ++ expected_digest ++ ")", ?_⟩, ?_, ?_⟩ <;>
    simp [_load_possible_targets, h]

/-- Witness for C5 with a hash that returns a wrong digest on a concrete
body. -/
theorem digest_mismatch_rejected_witness :
    ¬ (fun _ => "0" : String → String) "FOO" = expected_digest ∧
    ∀ ts, ¬ _load_possible_targets (fun _ => "0") "0.3.5" (Except.ok "FOO") =
      Except.ok ts :=
  ⟨by decide,
   (digest_mismatch_rejected (fun _ => "0") "0.3.5" "FOO" (by decide)).2.2⟩

/-- Claim C6: when the digest matches, the accepted target identifiers are
exactly the newline-delimited lines made of one or more uppercase letters
and nothing else, kept in their original file order. -/
theorem targets_accepted (sha256 : String → String) (version body : String)
    (h : sha256 body = expected_digest) :
    _load_possible_targets sha256 version (Except.ok body) =
      Except.ok ((pySplitNl body).filter
        (fun line => !line.data.isEmpty &&
          line.data.all (fun c => decide ('A' ≤ c) && decide (c ≤ 'Z')))) := by
  show _ = Except.ok ((pySplitNl body).filter isTargetLine)
  simp [_load_possible_targets, h]

/-- Witness for C6 on a concrete body: mixed-case, digit-bearing and empty
lines are dropped, uppercase-only lines kept in order. -/
theorem targets_accepted_witness :
    _load_possible_targets (fun _ => expected_digest) "0.3.5"
        (Except.ok "FOO\nbar\nBAZ\nA2C\n\nQ") =
      Except.ok ["FOO", "BAZ", "Q"] :=
  Eq.trans
    (targets_accepted (fun _ => expected_digest) "0.3.5" "FOO\nbar\nBAZ\nA2C\n\nQ" rfl)
    (congrArg Except.ok (by decide))

/-- Embeds the `cpp_info.libs` value produced by
`OpenblasConan.package_info` (src/conanfile.py lines 145-153), with the
`tools.collect_libs` result as the parameter `collected`: on Linux the
recipe appends pthread, and gfortran too unless NOFORTRAN is set. -/
def package_info (settings : Settings) (options : Options)
    (collected : List String) : List String :=
  let libs := collected
  if settings.os = "Linux" then
    let libs := libs ++ ["pthread"]
    if !options.NOFORTRAN then libs ++ ["gfortran"] else libs
  else libs

/-- Claim C9: on Linux the reported link dependencies include pthread, and
include gfortran exactly when NOFORTRAN is false (for any collected set
that does not itself ship a gfortran library). -/
theorem linux_link_deps (settings : Settings) (options : Options)
    (collected : List String) (hlin : settings.os = "Linux")
    (hg : ¬ "gfortran" ∈ collected) :
    "pthread" ∈ package_info settings options collected ∧
    ("gfortran" ∈ package_info settings options collected ↔
      options.NOFORTRAN = false) := by
  cases hnf : options.NOFORTRAN <;> simp [package_info, hlin, hnf, hg]

/-- Witness for C9 at a concrete Linux input with the default options. -/
theorem linux_link_deps_witness :
    sampleLinux.os = "Linux" ∧
    ¬ "gfortran" ∈ ["openblas"] ∧
    "pthread" ∈ package_info sampleLinux defaultOptions ["openblas"] ∧
    "gfortran" ∈ package_info sampleLinux defaultOptions ["openblas"] := by
  have h := linux_link_deps sampleLinux defaultOptions ["openblas"] rfl (by decide)
  exact ⟨rfl, by decide, h.1, h.2.mpr rfl⟩

end Openblas
